import Mathlib

/-!
Shallow embedding of the Turnstile-challenge controller of
`src/new_signup.py` (functions `parse_random_time`, `setup_config`,
`handle_turnstile`, `check_verification_success`,
`handle_verification_code`, `main`), together with theorems settling the
specification claims about them.

Conventions of the embedding:
* Python exceptions are modelled with `Except Unit`; a `try/except`
  wrapper is a `match` on that value.
* Browser-page lookups (`page.ele`) are modelled by an oracle value of
  type `Probe`: the element is found (truthy), not found (falsy), or the
  lookup raises.
* `time.sleep` and logging are pure no-ops; in the polling loop of
  `handle_verification_code` each `time.sleep(retry_interval)` advances a
  modelled `elapsed` clock by `retry_interval`, and `time.time()` reads it.
* Python `float` strings are modelled over `ℚ` for the finite-decimal
  subset of `float(...)` literals (optional sign, digits, one optional
  dot), which covers every string the configuration format produces.
-/

/-- Outcome of one `page.ele(...)` lookup: element found (truthy value),
element absent (falsy value), or the lookup raised an exception. -/
inductive Probe where
  | found
  | notFound
  | raised
deriving DecidableEq, Repr

/-- Oracle for one call of `check_verification_success`: the outcome of
each of the four success-marker probes (`@name=password`, `@name=email`,
`@data-index=0`, `Account Settings`) and the three error-text probes,
in the order the Python code evaluates them. -/
structure ProbeSpec where
  password : Probe
  email : Probe
  dataIndex : Probe
  accountSettings : Probe
  errHuman : Probe
  err600010 : Probe
  errTryAgain : Probe
deriving DecidableEq, Repr

/-- A probe used as a boolean in Python: raises, or yields truthiness. -/
def probeB : Probe → Except Unit Bool
  | .found => .ok true
  | .notFound => .ok false
  | .raised => .error ()

/-- Body of `check_verification_success` (src/new_signup.py:359-380),
i.e. the contents of its `try:` block with exceptions explicit:
the short-circuit `or` over the four success markers, then the loop over
the three error-text probes, then `return False`. -/
def check_body (ps : ProbeSpec) : Except Unit Bool := do
  let p1 ← probeB ps.password
  if p1 then
    return true
  let p2 ← probeB ps.email
  if p2 then
    return true
  let p3 ← probeB ps.dataIndex
  if p3 then
    return true
  let p4 ← probeB ps.accountSettings
  if p4 then
    return true
  let e1 ← probeB ps.errHuman
  if e1 then
    return false
  let e2 ← probeB ps.err600010
  if e2 then
    return false
  let e3 ← probeB ps.errTryAgain
  if e3 then
    return false
  return false

/-- `check_verification_success` with its `except: return False` wrapper,
keeping the exception channel in the type to express "never raises". -/
def check_raw (ps : ProbeSpec) : Except Unit Bool :=
  match check_body ps with
  | .ok b => .ok b
  | .error _ => .ok false

/-- `check_verification_success` (src/new_signup.py:359-382) as the
boolean its caller sees. -/
def check_verification_success (ps : ProbeSpec) : Bool :=
  match check_raw ps with
  | .ok b => b
  | .error _ => false

/-! ### Python float / string helpers for `parse_random_time` -/

/-- Decimal value of a digit list (most significant first). -/
def digitsVal (cs : List Char) : ℕ :=
  cs.foldl (fun a c => a * 10 + (c.toNat - 48)) 0

/-- Strip leading and trailing spaces, as Python `float` does. -/
def stripWS (cs : List Char) : List Char :=
  ((cs.dropWhile (· = ' ')).reverse.dropWhile (· = ' ')).reverse

/-- Split a character list at the first dot, if any. -/
def breakDot : List Char → List Char × Option (List Char)
  | [] => ([], none)
  | c :: t =>
      if c = '.' then ([], some t)
      else
        let p := breakDot t
        (c :: p.1, p.2)

/-- Python `float(s)` on the finite-decimal subset of literals:
optional surrounding spaces, optional sign, digits with at most one dot;
`none` models the `ValueError` raised on anything else. A literal with a
dot denotes `mantissa / 10 ^ (fraction length)`, the mantissa being the
digits with the dot removed. -/
def pyFloatL (cs0 : List Char) : Option ℚ :=
  let cs1 := stripWS cs0
  let sr : Bool × List Char :=
    match cs1 with
    | '-' :: t => (true, t)
    | '+' :: t => (false, t)
    | t => (false, t)
  let signed : ℚ → ℚ := fun q => if sr.1 then -q else q
  match breakDot sr.2 with
  | (ip, none) =>
      if !ip.isEmpty && ip.all Char.isDigit then
        some (signed (digitsVal ip : ℚ))
      else
        none
  | (ip, some fp) =>
      if (!ip.isEmpty || !fp.isEmpty) && ip.all Char.isDigit && fp.all Char.isDigit then
        some (signed ((digitsVal (ip ++ fp) : ℚ) / (10 : ℚ) ^ fp.length))
      else
        none

/-- Python `s.split(sep)` for a one-character separator. -/
def splitOnChar (c : Char) : List Char → List (List Char)
  | [] => [[]]
  | x :: t =>
      if x = c then [] :: splitOnChar c t
      else
        match splitOnChar c t with
        | h :: r => (x :: h) :: r
        | [] => [[x]]

/-- Python `sep in s` for a one-character separator. -/
def containsCh (cs : List Char) (c : Char) : Bool :=
  cs.any (· = c)

/-- Body of `parse_random_time` (src/new_signup.py:136-147), i.e. the
contents of its `try:` block with exceptions explicit: split on `'-'` or
`','`, require exactly two parts that both parse as floats, else a single
float for both bounds; any failure is the exception channel. -/
def parse_body (cs : List Char) : Except Unit (ℚ × ℚ) :=
  if containsCh cs '-' then
    match splitOnChar '-' cs with
    | [a, b] =>
        match pyFloatL a, pyFloatL b with
        | some x, some y => .ok (x, y)
        | _, _ => .error ()
    | _ => .error ()
  else if containsCh cs ',' then
    match splitOnChar ',' cs with
    | [a, b] =>
        match pyFloatL a, pyFloatL b with
        | some x, some y => .ok (x, y)
        | _, _ => .error ()
    | _ => .error ()
  else
    match pyFloatL cs with
    | some x => .ok (x, x)
    | none => .error ()

/-- `parse_random_time` with its `except: return 1, 3` wrapper, keeping
the exception channel in the type to express "never raises". -/
def parse_random_time_raw (s : String) : Except Unit (ℚ × ℚ) :=
  match parse_body s.toList with
  | .ok p => .ok p
  | .error _ => .ok (1, 3)

/-- `parse_random_time` (src/new_signup.py:136-147) as the pair its
caller sees. -/
def parse_random_time (s : String) : ℚ × ℚ :=
  match parse_body s.toList with
  | .ok p => p
  | .error _ => (1, 3)

/-- Python `random.uniform(a, b)`: `a + (b - a) * r` for a unit draw
`r ∈ [0, 1]`. -/
def uniform (a b r : ℚ) : ℚ :=
  a + (b - a) * r

/-! ### `handle_turnstile` (src/new_signup.py:274-357) -/

/-- Outcome of the chained challenge-input lookup
`page.ele("@id=cf-turnstile").child().shadow_root...sr("tag:input")`:
a truthy element, a falsy value, or an exception somewhere in the chain. -/
inductive LookupRes where
  | found
  | notFound
  | raised
deriving DecidableEq, Repr

/-- Oracle for one iteration of the retry loop: whether
`page.run_js("try { turnstile.reset() } catch(e) { }")` raises, the
outcome of the challenge-input lookup, and whether
`challenge_check.click()` raises. -/
structure AttemptEnv where
  resetRaises : Bool
  lookup : LookupRes
  clickRaises : Bool
deriving DecidableEq, Repr

/-- Oracle for a whole `handle_turnstile` run: the per-iteration page
behaviour (`attempt k` is the 0-indexed `k`-th loop iteration) and the
probe outcomes seen by the `n`-th call of `check_verification_success`
(calls counted across the whole run). -/
structure TurnstileEnv where
  attempt : Nat → AttemptEnv
  detector : Nat → ProbeSpec

/-- Observable outcome of a `handle_turnstile` run: the returned boolean,
the number of retry-loop iterations entered, the total number of
`check_verification_success` calls, and the number of clicks of the
challenge input. -/
structure TurnstileResult where
  result : Bool
  attempts : Nat
  checks : Nat
  clicks : Nat
deriving DecidableEq, Repr

/-- The success check that follows the `except:` clause of one loop
iteration (src/new_signup.py:337): consumes detector call `j` and either
returns `True` out of the function or falls through to the next
iteration. First component: the function returns `True` here; second:
next free detector index; third: clicks made in this iteration. -/
def postCheck (det : Nat → ProbeSpec) (j c : Nat) : Bool × Nat × Nat :=
  (check_verification_success (det j), j + 1, c)

/-- One iteration of the `while retry_count < max_retries` loop body of
`handle_turnstile` (src/new_signup.py:290-344): the `try:` block (reset,
lookup, click, inner success check at line 323), whose exceptions are
swallowed, followed by the unconditional success check at line 337.
`i` is the next free detector-call index. -/
def attemptStep (det : Nat → ProbeSpec) (a : AttemptEnv) (i : Nat) : Bool × Nat × Nat :=
  if a.resetRaises then postCheck det i 0
  else
    match a.lookup with
    | .raised => postCheck det i 0
    | .notFound => postCheck det i 0
    | .found =>
        if a.clickRaises then postCheck det i 1
        else if check_verification_success (det i) then (true, i + 1, 1)
        else postCheck det (i + 1) 1

/-- Number of detector invocations one loop iteration consumes when it
does not return early: 2 on the nominal path (the inner check at
src/new_signup.py:323 plus the unconditional check at line 337), 1 when
the reset raises, the lookup fails or the click raises (only the
line-337 check runs). -/
def attemptChecks (a : AttemptEnv) : Nat :=
  if a.resetRaises then 1
  else
    match a.lookup with
    | .found => if a.clickRaises then 1 else 2
    | _ => 1

/-- The retry loop of `handle_turnstile`, with `fuel` the remaining
iterations (`max_retries - retry_count`), `k` the iterations already
entered, `i` the next detector-call index and `c` the clicks so far.
Returns `False` when the bound is exhausted (src/new_signup.py:350). -/
def turnstileLoop (env : TurnstileEnv) : Nat → Nat → Nat → Nat → TurnstileResult
  | 0, k, i, c => ⟨false, k, i, c⟩
  | fuel + 1, k, i, c =>
      let s := attemptStep env.detector (env.attempt k) i
      if s.1 then ⟨true, k + 1, s.2.1, c + s.2.2⟩
      else turnstileLoop env fuel (k + 1) s.2.1 (c + s.2.2)

/-- `handle_turnstile` (src/new_signup.py:274-357) with its observable
counters. `timeStr` and `randStr` are the strings the two
`config.get(...)` calls return; `float(timeStr)` failing is the one
exception the outer `try:` can see, and it makes the function return
`False` before the loop runs. `max_retries` is the fixed constant 2. -/
def handle_turnstile_run (timeStr randStr : String) (env : TurnstileEnv) : TurnstileResult :=
  match pyFloatL timeStr.toList with
  | none => ⟨false, 0, 0, 0⟩
  | some _ =>
      let _minmax := parse_random_time randStr
      turnstileLoop env 2 0 0 0

/-- The boolean `handle_turnstile` returns to its caller. -/
def handle_turnstile (timeStr randStr : String) (env : TurnstileEnv) : Bool :=
  (handle_turnstile_run timeStr randStr env).result

/-- Body of `handle_turnstile`, i.e. the contents of its outer `try:`
block with exceptions explicit: `float(timeStr)` may raise, everything
else resolves to a boolean. -/
def handle_turnstile_body (timeStr randStr : String) (env : TurnstileEnv) : Except Unit Bool :=
  match pyFloatL timeStr.toList with
  | none => .error ()
  | some _ =>
      let _minmax := parse_random_time randStr
      .ok (turnstileLoop env 2 0 0 0).result

/-- `handle_turnstile` with its `except: ... return False` wrapper,
keeping the exception channel in the type to express "never raises". -/
def handle_turnstile_raw (timeStr randStr : String) (env : TurnstileEnv) : Except Unit Bool :=
  match handle_turnstile_body timeStr randStr env with
  | .ok b => .ok b
  | .error _ => .ok false

/-! ### `handle_verification_code` (src/new_signup.py:436-575) -/

/-- The `for attempt in range(max_attempts)` polling loop of
`handle_verification_code` (src/new_signup.py:519-538). `get p` is what
`controller.get_verification_code()` returns at the `p`-th poll (codes
are abstract naturals). `elapsed` models `time.time() - start_time`,
advanced by `interval` at each `time.sleep(retry_interval)`; the Python
loop breaks when `time.time() - start_time > timeout`, checked before
each poll. Returns the code found (if any) and the number of polls
performed. -/
def pollLoop (get : Nat → Option Nat) (interval timeout : Nat) :
    Nat → Nat → Nat → Option Nat × Nat
  | 0, polls, _ => (none, polls)
  | fuel + 1, polls, elapsed =>
      if timeout < elapsed then (none, polls)
      else
        match get polls with
        | some c => (some c, polls + 1)
        | none => pollLoop get interval timeout fuel (polls + 1) (elapsed + interval)

/-- The polling loop with the constants of src/new_signup.py:511-514:
`max_attempts = 20`, `retry_interval = 10`, `timeout = 160`, starting at
zero polls and zero elapsed time. -/
def await_code_poll (get : Nat → Option Nat) : Option Nat × Nat :=
  pollLoop get 10 160 20 0 0

/-- Oracle for a `handle_verification_code` run on its non-exceptional
paths: `hasGetCode` is `hasattr(controller, 'get_verification_code')`,
`emailTab` is the truthiness of `email_tab`, `manualCode` what the manual
`controller.get_verification_code()` yields, `earlyHasEmail` the result
of `email_tab.check_for_cursor_email()`, `earlyCode` what
`email_tab.get_verification_code()` yields, `pollCode` the poll-loop
oracle, and the three `t*` fields the outcomes of the corresponding
`handle_turnstile(browser_tab, translator)` calls. -/
structure HvcEnv where
  hasGetCode : Bool
  emailTab : Bool
  manualCode : Option Nat
  earlyHasEmail : Bool
  earlyCode : Option Nat
  pollCode : Nat → Option Nat
  tManual : Bool
  tEarly : Bool
  tPoll : Bool

/-- The tail of the auto branch of `handle_verification_code`
(src/new_signup.py:509-570): poll for a code, then either run the final
challenge round and return `(True, browser_tab)` / `(False, None)`, or
return `(False, None)` when no code was obtained. -/
def hvcPollSection (env : HvcEnv) : Option (Bool × Bool) :=
  match (pollLoop env.pollCode 10 160 20 0 0).1 with
  | some _ => if env.tPoll then some (true, true) else some (false, false)
  | none => some (false, false)

/-- `handle_verification_code` (src/new_signup.py:436-575) on its
non-exceptional paths. The Python function returns either a pair —
modelled `some (flag, has_tab)` with `(True, browser_tab) ↦
some (true, true)` and `(False, None) ↦ some (false, false)` — or falls
off the end of the function and returns `None`, modelled `none`. -/
def handle_verification_code (env : HvcEnv) : Option (Bool × Bool) :=
  if env.hasGetCode && !env.emailTab then
    match env.manualCode with
    | some _ => if env.tManual then some (true, true) else some (false, false)
    | none => none
  else if env.emailTab then
    if env.earlyHasEmail then
      match env.earlyCode with
      | some _ => if env.tEarly then some (true, true) else some (false, false)
      | none => hvcPollSection env
    else hvcPollSection env
  else
    none

/-! ### `main` (src/new_signup.py:626-709) -/

/-- Oracle for one `main` run in which `setup_driver` succeeded (a page
session exists): outcomes of `fill_signup_form`, the two
`handle_turnstile(page, config, translator)` calls, `fill_password`, and
the value `handle_verification_code` returns (`none` models Python
`None`, `some (flag, has_tab)` models a returned pair). -/
structure MainEnv where
  fillForm : Bool
  turnstile1 : Bool
  fillPw : Bool
  turnstile2 : Bool
  hvc : Option (Bool × Bool)
deriving DecidableEq, Repr

/-- Observable outcome of a `main` run: the `success` flag at the time
the `finally:` block runs, whether the `finally:` block tears the page
session down (`page.quit()` + `cleanup_chrome_processes`), and the
returned `(flag, has_page)` pair. -/
structure MainOutcome where
  success : Bool
  teardown : Bool
  retFlag : Bool
  retHasPage : Bool
deriving DecidableEq, Repr

/-- The success/teardown control flow of `main`
(src/new_signup.py:634-709). The verification-code step's result is used
as a Python truth value: a returned pair — `(True, browser_tab)` and
`(False, None)` alike — is a non-empty tuple and therefore truthy, while
a fall-through `None` is falsy. The `finally:` block tears down exactly
when a page exists and `success` is still `False`. -/
def main_run (env : MainEnv) : MainOutcome :=
  if env.fillForm then
    if env.turnstile1 then
      if env.fillPw then
        if env.turnstile2 then
          match env.hvc with
          | some _ => ⟨true, false, true, true⟩
          | none => ⟨false, true, false, false⟩
        else ⟨false, true, false, false⟩
      else ⟨false, true, false, false⟩
    else ⟨false, true, false, false⟩
  else ⟨false, true, false, false⟩

/-- The four random throwaway credentials `main` can generate
(src/new_signup.py:654-657), kept abstract. -/
structure RandCreds where
  firstName : String
  lastName : String
  email : String
  password : String
deriving DecidableEq, Repr

/-- Python truthiness of an optional string argument: `None` and the
empty string are falsy. -/
def pyTruthyStr : Option String → Bool
  | none => false
  | some s => !s.isEmpty

/-- Credential resolution and `test_accounts.txt` logging of `main`
(src/new_signup.py:652-664). The file is a list of `(email, password)`
records, opened in append mode (`'a'`): one record is appended, existing
content untouched. The `if not all([email, password, first_name,
last_name])` guard regenerates all four credentials as soon as any one
of them is falsy. Output: the four credential strings used and the file
content afterwards. -/
def main_credentials (email password firstName lastName : Option String)
    (r : RandCreds) (file : List (String × String)) :
    (String × String × String × String) × List (String × String) :=
  if pyTruthyStr email && pyTruthyStr password &&
      pyTruthyStr firstName && pyTruthyStr lastName then
    ((firstName.getD "", lastName.getD "", email.getD "", password.getD ""), file)
  else
    ((r.firstName, r.lastName, r.email, r.password), file ++ [(r.email, r.password)])

/-! ### `setup_config` (src/new_signup.py:149-213) -/

/-- A parsed INI configuration: a partial map from section names to
partial maps from option names to values, as `configparser` holds it. -/
abbrev IniConfig := String → Option (String → Option String)

/-- `config.has_section(s)`. -/
def has_section (c : IniConfig) (s : String) : Bool :=
  (c s).isSome

/-- `config.add_section(s)`: installs an empty section. The code only
calls it when `has_section` is false. -/
def add_section (c : IniConfig) (s : String) : IniConfig :=
  fun t => if t = s then some (fun _ => none) else c t

/-- `config.has_option(s, o)`: false when the section is absent. -/
def has_option (c : IniConfig) (s o : String) : Bool :=
  match c s with
  | some m => (m o).isSome
  | none => false

/-- `config.set(s, o, v)`: writes the option in section `s`. The code
only calls it on sections that exist. -/
def config_set (c : IniConfig) (s o v : String) : IniConfig :=
  fun t =>
    if t = s then
      some (fun p =>
        if p = o then some v
        else
          match c s with
          | some m => m p
          | none => none)
    else c t

/-- `config.get(s, o)` as a partial read (for stating what a
configuration contains). -/
def get_option (c : IniConfig) (s o : String) : Option String :=
  match c s with
  | some m => m o
  | none => none

/-- The `default_config` dictionary of `setup_config`
(src/new_signup.py:163-171), with the machine-dependent
`get_default_chrome_path()` value abstracted as `path`. -/
def defaultConfig (path : String) : List (String × List (String × String)) :=
  [("Chrome", [("chromepath", path)]),
   ("Turnstile", [("handle_turnstile_time", "2"),
                  ("handle_turnstile_random_time", "1-3")])]

/-- The inner option loop step of `setup_config`
(src/new_signup.py:182-187): add the option with its default value only
if it is missing, recording that the file was modified. -/
def ensureOption (acc : IniConfig × Bool) (s : String) (ov : String × String) :
    IniConfig × Bool :=
  if has_option acc.1 s ov.1 then acc
  else (config_set acc.1 s ov.1 ov.2, true)

/-- The outer section loop step of `setup_config`
(src/new_signup.py:178-187): add the section if missing, then ensure
each of its default options. -/
def ensureSection (acc : IniConfig × Bool) (sec : String × List (String × String)) :
    IniConfig × Bool :=
  let acc1 := if has_section acc.1 sec.1 then acc else (add_section acc.1 sec.1, true)
  sec.2.foldl (fun a ov => ensureOption a sec.1 ov) acc1

/-- The existing-file branch of `setup_config`
(src/new_signup.py:173-194): walk `default_config` over the parsed file
`c0`, filling in what is missing. The boolean is `config_modified`; the
file is rewritten exactly when it is `true`. -/
def setup_config_existing (path : String) (c0 : IniConfig) : IniConfig × Bool :=
  (defaultConfig path).foldl ensureSection (c0, false)

/-! ### Concrete oracles used to instantiate the theorems -/

/-- A page whose challenge input is always found and clickable and whose
detector probes never find a marker. -/
def envAllFalse : TurnstileEnv :=
  ⟨fun _ => ⟨false, .found, false⟩,
   fun _ => ⟨.notFound, .notFound, .notFound, .notFound, .notFound, .notFound, .notFound⟩⟩

/-- A page whose challenge input is always found and whose detector finds
a success marker from its second call on. -/
def envSecondCheck : TurnstileEnv :=
  ⟨fun _ => ⟨false, .found, false⟩,
   fun n =>
     if n = 0 then ⟨.notFound, .notFound, .notFound, .notFound, .notFound, .notFound, .notFound⟩
     else ⟨.found, .notFound, .notFound, .notFound, .notFound, .notFound, .notFound⟩⟩

/-- A page whose first loop iteration finds no challenge input (so that
iteration consumes a single detector call, which fails) and whose second
iteration is nominal with the detector succeeding at its first call:
success is first detected during attempt 2. -/
def envSecondAttempt : TurnstileEnv :=
  ⟨fun k =>
     if k = 0 then ⟨false, .notFound, false⟩ else ⟨false, .found, false⟩,
   fun n =>
     if n = 0 then ⟨.notFound, .notFound, .notFound, .notFound, .notFound, .notFound, .notFound⟩
     else ⟨.found, .notFound, .notFound, .notFound, .notFound, .notFound, .notFound⟩⟩

/-- A page on which every interaction raises. -/
def envRaised : TurnstileEnv :=
  ⟨fun _ => ⟨true, .raised, true⟩,
   fun _ => ⟨.raised, .raised, .raised, .raised, .raised, .raised, .raised⟩⟩

/-- A fixed draw of the four random credentials. -/
def randEx : RandCreds := ⟨"Abcdef", "Ghijkl", "abcdef123@example.com", "XyZ9pass!"⟩

/-- A configuration file holding only `[Turnstile] handle_turnstile_time = 5`. -/
def c0Ex : IniConfig := fun s =>
  if s = "Turnstile" then
    some (fun o => if o = "handle_turnstile_time" then some "5" else none)
  else none

/-! ### Helper lemmas -/

lemma attemptStep_no_success (det : Nat → ProbeSpec) (a : AttemptEnv) (i : Nat)
    (H : ∀ n, check_verification_success (det n) = false) :
    (attemptStep det a i).1 = false := by
  unfold attemptStep postCheck
  cases hr : a.resetRaises <;> cases hl : a.lookup <;> cases hc : a.clickRaises <;>
    simp [H]

lemma turnstileLoop_no_success (env : TurnstileEnv)
    (H : ∀ n, check_verification_success (env.detector n) = false) :
    ∀ fuel k i c, ∃ i2 c2, turnstileLoop env fuel k i c = ⟨false, k + fuel, i2, c2⟩ := by
  intro fuel
  induction fuel with
  | zero => intro k i c; exact ⟨i, c, rfl⟩
  | succ n ih =>
      intro k i c
      have hs := attemptStep_no_success env.detector (env.attempt k) i H
      obtain ⟨i2, c2, h⟩ := ih (k + 1) (attemptStep env.detector (env.attempt k) i).2.1
        (c + (attemptStep env.detector (env.attempt k) i).2.2)
      refine ⟨i2, c2, ?_⟩
      rw [turnstileLoop, if_neg (by simp [hs]), h]
      congr 1
      omega

lemma check_no_success_marker (ps : ProbeSpec)
    (h1 : ps.password ≠ Probe.found) (h2 : ps.email ≠ Probe.found)
    (h3 : ps.dataIndex ≠ Probe.found) (h4 : ps.accountSettings ≠ Probe.found) :
    check_verification_success ps = false := by
  obtain ⟨p1, p2, p3, p4, e1, e2, e3⟩ := ps
  cases p1 <;> cases p2 <;> cases p3 <;> cases p4 <;> cases e1 <;> cases e2 <;> cases e3 <;>
    first
      | rfl
      | exact absurd rfl h1
      | exact absurd rfl h2
      | exact absurd rfl h3
      | exact absurd rfl h4

lemma append_singleton_ne {α : Type} (l : List α) (a : α) : l ++ [a] ≠ l := by
  intro h
  have := congrArg List.length h
  simp at this

lemma hvcPollSection_shape (env : HvcEnv) :
    hvcPollSection env = some (true, true) ∨ hvcPollSection env = some (false, false) := by
  unfold hvcPollSection
  rcases (pollLoop env.pollCode 10 160 20 0 0).1 with _ | c
  · right; rfl
  · cases env.tPoll
    · right; rfl
    · left; rfl

lemma get_option_config_set (c : IniConfig) (s o v s' o' : String) :
    get_option (config_set c s o v) s' o' =
      if s' = s then (if o' = o then some v else get_option c s o')
      else get_option c s' o' := by
  unfold get_option config_set
  by_cases hs : s' = s
  · by_cases ho : o' = o
    · simp [hs, ho]
    · simp [hs, ho]
  · simp [hs]

lemma get_option_add_section (c : IniConfig) (s s' o : String) (h : c s = none) :
    get_option (add_section c s) s' o = get_option c s' o := by
  unfold get_option add_section
  by_cases hs : s' = s
  · simp [hs, h]
  · simp [hs]

lemma has_option_config_set (c : IniConfig) (s o v s' o' : String) :
    has_option (config_set c s o v) s' o' =
      if s' = s then (if o' = o then true else has_option c s o')
      else has_option c s' o' := by
  unfold has_option config_set
  by_cases hs : s' = s
  · by_cases ho : o' = o
    · simp [hs, ho]
    · simp [hs, ho]
      try (cases c s <;> rfl)
  · simp [hs]

lemma has_option_add_section (c : IniConfig) (s s' o : String) :
    has_option (add_section c s) s' o = if s' = s then false else has_option c s' o := by
  unfold has_option add_section
  by_cases hs : s' = s <;> simp [hs]

lemma has_section_none (c : IniConfig) (s : String) (h : has_section c s = false) :
    c s = none := by
  unfold has_section at h
  cases hc : c s
  · rfl
  · rw [hc] at h; simp at h

lemma has_option_isSome (c : IniConfig) (s o : String) :
    has_option c s o = (get_option c s o).isSome := by
  unfold has_option get_option
  cases c s <;> rfl

lemma has_option_section (c : IniConfig) (s o : String) (h : has_option c s o = true) :
    has_section c s = true := by
  unfold has_option at h
  unfold has_section
  cases hc : c s
  · rw [hc] at h; simp at h
  · simp [hc]

lemma ensureOption_preserves (acc : IniConfig × Bool) (s : String) (ov : String × String)
    (s' o' : String) (v : String) (hv : get_option acc.1 s' o' = some v) :
    get_option (ensureOption acc s ov).1 s' o' = some v := by
  unfold ensureOption
  by_cases h : has_option acc.1 s ov.1 = true
  · simp [h, hv]
  · simp only [Bool.not_eq_true] at h
    simp only [h, Bool.false_eq_true, if_false]
    rw [get_option_config_set]
    by_cases hs : s' = s
    · by_cases ho : o' = ov.1
      · subst hs; subst ho
        rw [has_option_isSome, hv] at h
        simp at h
      · subst hs
        simp [ho, hv]
    · simp [hs, hv]

lemma ensureOption_get_other (acc : IniConfig × Bool) (s : String) (ov : String × String)
    (s' o' : String) (hne : ¬(s' = s ∧ o' = ov.1)) :
    get_option (ensureOption acc s ov).1 s' o' = get_option acc.1 s' o' := by
  unfold ensureOption
  by_cases h : has_option acc.1 s ov.1 = true
  · simp [h]
  · simp only [Bool.not_eq_true] at h
    simp only [h, Bool.false_eq_true, if_false]
    rw [get_option_config_set]
    by_cases hs : s' = s
    · have ho : ¬ o' = ov.1 := fun ho => hne ⟨hs, ho⟩
      subst hs
      simp [ho]
    · simp [hs]

lemma ensureOption_has_other (acc : IniConfig × Bool) (s : String) (ov : String × String)
    (s' o' : String) (hne : ¬(s' = s ∧ o' = ov.1)) :
    has_option (ensureOption acc s ov).1 s' o' = has_option acc.1 s' o' := by
  rw [has_option_isSome, has_option_isSome, ensureOption_get_other acc s ov s' o' hne]

lemma ensureOption_false (acc : IniConfig × Bool) (s : String) (ov : String × String)
    (h : (ensureOption acc s ov).2 = false) :
    ensureOption acc s ov = acc ∧ acc.2 = false := by
  unfold ensureOption at *
  by_cases hc : has_option acc.1 s ov.1 = true
  · simp [hc] at h ⊢
    exact h
  · simp only [Bool.not_eq_true] at hc
    simp [hc] at h

lemma foldl_ensureOption_preserves (opts : List (String × String)) (s : String) :
    ∀ (acc : IniConfig × Bool) (s' o' v : String), get_option acc.1 s' o' = some v →
      get_option ((opts.foldl (fun a ov => ensureOption a s ov) acc)).1 s' o' = some v := by
  induction opts with
  | nil => intro acc s' o' v hv; exact hv
  | cons ov rest ih =>
      intro acc s' o' v hv
      exact ih (ensureOption acc s ov) s' o' v (ensureOption_preserves acc s ov s' o' v hv)

lemma foldl_ensureOption_get_other (opts : List (String × String)) (s : String) :
    ∀ (acc : IniConfig × Bool) (s' o' : String),
      (∀ ov ∈ opts, ¬(s' = s ∧ o' = ov.1)) →
      get_option ((opts.foldl (fun a ov => ensureOption a s ov) acc)).1 s' o' =
        get_option acc.1 s' o' := by
  induction opts with
  | nil => intro acc s' o' _; rfl
  | cons ov rest ih =>
      intro acc s' o' h
      rw [List.foldl_cons,
        ih (ensureOption acc s ov) s' o' (fun x hx => h x (List.mem_cons_of_mem ov hx)),
        ensureOption_get_other acc s ov s' o' (h ov (List.mem_cons_self ov rest))]

lemma foldl_ensureOption_has_other (opts : List (String × String)) (s : String)
    (acc : IniConfig × Bool) (s' o' : String)
    (h : ∀ ov ∈ opts, ¬(s' = s ∧ o' = ov.1)) :
    has_option ((opts.foldl (fun a ov => ensureOption a s ov) acc)).1 s' o' =
      has_option acc.1 s' o' := by
  rw [has_option_isSome, has_option_isSome, foldl_ensureOption_get_other opts s acc s' o' h]

lemma foldl_ensureOption_false (opts : List (String × String)) (s : String) :
    ∀ (acc : IniConfig × Bool),
      ((opts.foldl (fun a ov => ensureOption a s ov) acc)).2 = false →
      (opts.foldl (fun a ov => ensureOption a s ov) acc) = acc ∧ acc.2 = false := by
  induction opts with
  | nil => intro acc h; exact ⟨rfl, h⟩
  | cons ov rest ih =>
      intro acc h
      rw [List.foldl_cons] at h
      obtain ⟨he, hflag⟩ := ih (ensureOption acc s ov) h
      obtain ⟨he2, hflag2⟩ := ensureOption_false acc s ov hflag
      rw [List.foldl_cons, he, he2]
      exact ⟨rfl, hflag2⟩

lemma ensureSection_preserves (acc : IniConfig × Bool) (sec : String × List (String × String))
    (s' o' v : String) (hv : get_option acc.1 s' o' = some v) :
    get_option (ensureSection acc sec).1 s' o' = some v := by
  unfold ensureSection
  by_cases hs : has_section acc.1 sec.1 = true
  · simp only [hs, if_true]
    exact foldl_ensureOption_preserves sec.2 sec.1 acc s' o' v hv
  · simp only [Bool.not_eq_true] at hs
    simp only [hs, Bool.false_eq_true, if_false]
    refine foldl_ensureOption_preserves sec.2 sec.1 _ s' o' v ?_
    rw [show (add_section acc.1 sec.1, true).1 = add_section acc.1 sec.1 from rfl,
      get_option_add_section acc.1 sec.1 s' o' (has_section_none acc.1 sec.1 hs)]
    exact hv

lemma ensureSection_get_other (acc : IniConfig × Bool) (sec : String × List (String × String))
    (s' o' : String) (h : ∀ ov ∈ sec.2, ¬(s' = sec.1 ∧ o' = ov.1)) :
    get_option (ensureSection acc sec).1 s' o' = get_option acc.1 s' o' := by
  unfold ensureSection
  by_cases hs : has_section acc.1 sec.1 = true
  · simp only [hs, if_true]
    exact foldl_ensureOption_get_other sec.2 sec.1 acc s' o' h
  · simp only [Bool.not_eq_true] at hs
    simp only [hs, Bool.false_eq_true, if_false]
    rw [foldl_ensureOption_get_other sec.2 sec.1 _ s' o' h,
      show (add_section acc.1 sec.1, true).1 = add_section acc.1 sec.1 from rfl,
      get_option_add_section acc.1 sec.1 s' o' (has_section_none acc.1 sec.1 hs)]

lemma ensureSection_has_other_section (acc : IniConfig × Bool)
    (sec : String × List (String × String)) (s' o' : String) (hs : s' ≠ sec.1) :
    has_option (ensureSection acc sec).1 s' o' = has_option acc.1 s' o' := by
  unfold ensureSection
  by_cases hsec : has_section acc.1 sec.1 = true
  · simp only [hsec, if_true]
    exact foldl_ensureOption_has_other sec.2 sec.1 acc s' o' (fun ov _ hc => hs hc.1)
  · simp only [Bool.not_eq_true] at hsec
    simp only [hsec, Bool.false_eq_true, if_false]
    rw [foldl_ensureOption_has_other sec.2 sec.1 _ s' o' (fun ov _ hc => hs hc.1),
      show (add_section acc.1 sec.1, true).1 = add_section acc.1 sec.1 from rfl,
      has_option_add_section, if_neg hs]

lemma ensureSection_false (acc : IniConfig × Bool) (sec : String × List (String × String))
    (h : (ensureSection acc sec).2 = false) :
    ensureSection acc sec = acc ∧ acc.2 = false := by
  unfold ensureSection at *
  by_cases hs : has_section acc.1 sec.1 = true
  · simp only [hs, if_true] at h ⊢
    exact foldl_ensureOption_false sec.2 sec.1 acc h
  · simp only [Bool.not_eq_true] at hs
    simp only [hs, Bool.false_eq_true, if_false] at h ⊢
    obtain ⟨_, hflag⟩ := foldl_ensureOption_false sec.2 sec.1 _ h
    simp at hflag

lemma attemptStep_first_true (det : Nat → ProbeSpec) (a : AttemptEnv) (i : Nat)
    (h : check_verification_success (det i) = true) :
    (attemptStep det a i).1 = true := by
  unfold attemptStep postCheck
  cases a.resetRaises <;> cases a.lookup <;> cases a.clickRaises <;> simp [h]

lemma attemptStep_some_true (det : Nat → ProbeSpec) (a : AttemptEnv) (i : Nat)
    (h : check_verification_success (det i) = true ∨
      (a.resetRaises = false ∧ a.lookup = LookupRes.found ∧ a.clickRaises = false ∧
       check_verification_success (det (i + 1)) = true)) :
    (attemptStep det a i).1 = true := by
  rcases h with h | ⟨hr, hl, hc, h⟩
  · exact attemptStep_first_true det a i h
  · cases hi : check_verification_success (det i)
    · simp [attemptStep, postCheck, hr, hl, hc, hi, h]
    · simp [attemptStep, postCheck, hr, hl, hc, hi]

lemma attemptStep_all_false (det : Nat → ProbeSpec) (a : AttemptEnv) (i : Nat)
    (h : ∀ m, m < attemptChecks a → check_verification_success (det (i + m)) = false) :
    (attemptStep det a i).1 = false ∧ (attemptStep det a i).2.1 = i + attemptChecks a := by
  rcases a with ⟨rr, lk, cr⟩
  by_cases hnom : rr = false ∧ lk = LookupRes.found ∧ cr = false
  · obtain ⟨hrr, hlk, hcr⟩ := hnom
    subst hrr
    subst hlk
    subst hcr
    have h0 : check_verification_success (det i) = false := by
      simpa using h 0 (by norm_num [attemptChecks])
    have h1 : check_verification_success (det (i + 1)) = false := by
      simpa using h 1 (by norm_num [attemptChecks])
    simp [attemptStep, postCheck, attemptChecks, h0, h1]
  · have h0 : check_verification_success (det i) = false := by
      have hpos : 0 < attemptChecks ⟨rr, lk, cr⟩ := by
        unfold attemptChecks
        cases rr <;> cases lk <;> cases cr <;> norm_num
      simpa using h 0 hpos
    cases rr <;> cases lk <;> cases cr <;>
      first
        | (simp [attemptStep, postCheck, attemptChecks, h0]; done)
        | exact absurd ⟨rfl, rfl, rfl⟩ hnom

/-! ### Claims -/

/-- Claim C1: with the retry bound `max_retries = 2` fixed in
`handle_turnstile`, if `check_verification_success` returns false at
every invocation, then `handle_turnstile` enters its retry loop exactly
twice and returns false — for every page behaviour and every
configuration whose `handle_turnstile_time` string parses as a float. -/
theorem turnstile_two_attempts_then_false (timeStr randStr : String) (env : TurnstileEnv)
    (hcfg : (pyFloatL timeStr.toList).isSome = true)
    (hdet : ∀ n, check_verification_success (env.detector n) = false) :
    (handle_turnstile_run timeStr randStr env).result = false ∧
    (handle_turnstile_run timeStr randStr env).attempts = 2 := by
  obtain ⟨t, ht⟩ := Option.isSome_iff_exists.mp hcfg
  obtain ⟨i2, c2, h⟩ := turnstileLoop_no_success env hdet 2 0 0 0
  simp only [String.toList] at ht
  simp [handle_turnstile_run, ht, h]

/-- Witness for C1: the default configuration and a page whose detector
never finds a marker. -/
theorem turnstile_two_attempts_then_false_witness :
    (handle_turnstile_run "2" "1-3" envAllFalse).result = false ∧
    (handle_turnstile_run "2" "1-3" envAllFalse).attempts = 2 :=
  turnstile_two_attempts_then_false "2" "1-3" envAllFalse rfl (fun _ => rfl)

/-- Claim C2: if `check_verification_success` returns true at some
invocation during attempt `k ≤ max_retries = 2`, `handle_turnstile`
returns true immediately without starting attempt `k + 1`. An iteration
consumes its detector invocations at indices `i` (always) and `i + 1`
(only on the nominal path), `i` being the running invocation count, so
"true at some invocation during the attempt" is the stated disjunction.
First conjunct, `k = 1`: success at either invocation of attempt 1
gives result true after exactly one loop iteration. Second conjunct,
`k = 2`: when every invocation of attempt 1 is false and some invocation
of attempt 2 (starting at index `attemptChecks (env.attempt 0)`) is
true, the result is true after exactly two iterations, i.e. the success
was detected during attempt 2 and no attempt bound was exhausted. Third
conjunct, the spec scenario: a nominal first attempt with detector
sequence false-then-true returns true after exactly one attempt, two
detector invocations and one click. -/
theorem turnstile_true_without_next_attempt (timeStr randStr : String) (env : TurnstileEnv)
    (hcfg : (pyFloatL timeStr.toList).isSome = true) :
    ((check_verification_success (env.detector 0) = true ∨
        ((env.attempt 0).resetRaises = false ∧ (env.attempt 0).lookup = LookupRes.found ∧
         (env.attempt 0).clickRaises = false ∧
         check_verification_success (env.detector 1) = true)) →
      (handle_turnstile_run timeStr randStr env).result = true ∧
      (handle_turnstile_run timeStr randStr env).attempts = 1) ∧
    ((∀ m, m < attemptChecks (env.attempt 0) →
        check_verification_success (env.detector m) = false) →
      (check_verification_success (env.detector (attemptChecks (env.attempt 0))) = true ∨
        ((env.attempt 1).resetRaises = false ∧ (env.attempt 1).lookup = LookupRes.found ∧
         (env.attempt 1).clickRaises = false ∧
         check_verification_success (env.detector (attemptChecks (env.attempt 0) + 1)) = true)) →
      (handle_turnstile_run timeStr randStr env).result = true ∧
      (handle_turnstile_run timeStr randStr env).attempts = 2) ∧
    (env.attempt 0 = ⟨false, .found, false⟩ →
      check_verification_success (env.detector 0) = false →
      check_verification_success (env.detector 1) = true →
      handle_turnstile_run timeStr randStr env = ⟨true, 1, 2, 1⟩) := by
  obtain ⟨t, ht⟩ := Option.isSome_iff_exists.mp hcfg
  simp only [String.toList] at ht
  refine ⟨?_, ?_, ?_⟩
  · intro h
    have hs := attemptStep_some_true env.detector (env.attempt 0) 0 (by simpa using h)
    simp [handle_turnstile_run, ht, turnstileLoop, hs]
  · intro hfail hsucc
    obtain ⟨hf1, hn1⟩ := attemptStep_all_false env.detector (env.attempt 0) 0
      (by simpa using hfail)
    have hs2 := attemptStep_some_true env.detector (env.attempt 1)
      (attemptChecks (env.attempt 0)) hsucc
    simp [handle_turnstile_run, ht, turnstileLoop, hf1, hn1, hs2]
  · intro ha h0 h1
    simp [handle_turnstile_run, ht, turnstileLoop, attemptStep, postCheck, ha, h0, h1]

/-- Witness for C2, exercising both a `k = 2` success and the spec
scenario: on a page whose first iteration finds no challenge input and
whose detector first succeeds at attempt 2's first invocation, the run
returns true after two attempts; and the nominal false-then-true page
returns `⟨true, 1, 2, 1⟩`. -/
theorem turnstile_true_without_next_attempt_witness :
    ((handle_turnstile_run "2" "1-3" envSecondAttempt).result = true ∧
     (handle_turnstile_run "2" "1-3" envSecondAttempt).attempts = 2) ∧
    handle_turnstile_run "2" "1-3" envSecondCheck = ⟨true, 1, 2, 1⟩ :=
  ⟨(turnstile_true_without_next_attempt "2" "1-3" envSecondAttempt rfl).2.1
      (fun m hm => by
        have hm0 : m = 0 := Nat.lt_one_iff.mp hm
        subst hm0
        rfl)
      (Or.inl rfl),
   (turnstile_true_without_next_attempt "2" "1-3" envSecondCheck rfl).2.2 rfl rfl rfl⟩

/-- Claim C3, counterexample to the stated poll count: with the
constants of the code (`deadline = 160`, `interval = 10`,
`max_attempts = 20`) and a mailbox that never yields a code, the loop
performs 17 polls, not the 16 the claim states: the timeout check
`time.time() - start_time > timeout` is strict and precedes each poll,
so polls happen at elapsed times 0, 10, …, 160. -/
theorem await_code_polls_seventeen_not_sixteen :
    await_code_poll (fun _ => none) = (none, 17) ∧
    (await_code_poll (fun _ => none)).2 ≠ 16 := by
  constructor
  · rfl
  · intro h
    rw [show await_code_poll (fun _ => none) = (none, 17) from rfl] at h
    simp at h

/-- Claim C3 (amended): with a mailbox that never yields a code the
polling loop of `handle_verification_code` returns absent after at most
`max_attempts = 20` polls, stopping at the first attempt whose start
time strictly exceeds the deadline; with `deadline = 160` and
`interval = 10` that is after exactly 17 polls (elapsed 0, 10, …, 160),
not 16 and not 20. -/
theorem await_code_empty_mailbox_seventeen_polls (get : Nat → Option Nat)
    (h : ∀ n, get n = none) :
    await_code_poll get = (none, 17) := by
  simp only [await_code_poll, pollLoop, h]
  norm_num

/-- Witness for C3 (amended): the always-empty mailbox. -/
theorem await_code_empty_mailbox_seventeen_polls_witness :
    await_code_poll (fun _ => none) = (none, 17) :=
  await_code_empty_mailbox_seventeen_polls (fun _ => none) (fun _ => rfl)

/-- Claim C4, counterexample to the normalization half: the range string
`"5-2"`, whose parsed min exceeds its parsed max, is neither rejected
nor normalized to the default pair `(1, 3)` — `parse_random_time`
returns `(5, 2)` unchanged. -/
theorem parse_random_time_inverted_passthrough :
    parse_random_time "5-2" = (5, 2) ∧ ¬((5 : ℚ) ≤ 2) ∧
    parse_random_time "5-2" ≠ ((1 : ℚ), (3 : ℚ)) := by
  refine ⟨rfl, by norm_num, ?_⟩
  rw [show parse_random_time "5-2" = (5, 2) from rfl]
  intro h
  have := congrArg Prod.fst h
  norm_num at this

/-- Claim C4 (amended): for every configured range string, the jittered
delays `random.uniform(a, b)` used by `handle_turnstile` fall within the
closed interval spanned by the pair `(a, b)` produced by
`parse_random_time` — between `min a b` and `max a b`; a pair with
`a > b` is passed through as-is, not rejected or normalized, and the
draw then lives in `[b, a]`. -/
theorem uniform_within_span_of_parsed_range (s : String) (a b r : ℚ)
    (_hp : parse_random_time s = (a, b)) (h0 : 0 ≤ r) (h1 : r ≤ 1) :
    min a b ≤ uniform a b r ∧ uniform a b r ≤ max a b := by
  rcases le_total a b with hab | hab
  · rw [min_eq_left hab, max_eq_right hab]
    unfold uniform
    constructor <;> nlinarith
  · rw [min_eq_right hab, max_eq_left hab]
    unfold uniform
    constructor <;> nlinarith

/-- Witness for C4 (amended): the inverted range `"5-2"` with unit draw
`r = 0`. -/
theorem uniform_within_span_of_parsed_range_witness :
    min (5 : ℚ) 2 ≤ uniform 5 2 0 ∧ uniform 5 2 0 ≤ max (5 : ℚ) 2 :=
  uniform_within_span_of_parsed_range "5-2" 5 2 0 rfl (le_refl 0) zero_le_one

/-- Claim C5: neither `check_verification_success` nor `handle_turnstile`
ever raises to its caller — both functions, modelled with their
exception channel explicit, always produce `Except.ok` of a boolean for
every page behaviour — and `check_verification_success` returns false
whenever none of its four success markers is found, which covers both a
present failure marker and probes that raise. -/
theorem check_and_turnstile_never_raise (timeStr randStr : String) (env : TurnstileEnv)
    (ps : ProbeSpec) :
    (∃ b, check_raw ps = Except.ok b) ∧
    (ps.password ≠ Probe.found → ps.email ≠ Probe.found → ps.dataIndex ≠ Probe.found →
      ps.accountSettings ≠ Probe.found → check_verification_success ps = false) ∧
    (∃ b, handle_turnstile_raw timeStr randStr env = Except.ok b) := by
  refine ⟨?_, check_no_success_marker ps, ?_⟩
  · unfold check_raw
    cases check_body ps <;> exact ⟨_, rfl⟩
  · unfold handle_turnstile_raw
    cases handle_turnstile_body timeStr randStr env <;> exact ⟨_, rfl⟩

/-- Witness for C5: a page where every interaction raises and an
unparseable configuration, and a detector call that sees a failure
marker plus raising success probes — the detector still answers false. -/
theorem check_and_turnstile_never_raise_witness :
    check_verification_success
      ⟨.raised, .notFound, .raised, .notFound, .found, .raised, .raised⟩ = false :=
  (check_and_turnstile_never_raise "bad" "x" envRaised
      ⟨.raised, .notFound, .raised, .notFound, .found, .raised, .raised⟩).2.1
    (by decide) (by decide) (by decide) (by decide)

/-- Claim C6 (code bug): evaluation of `main` at the failing input. When
the form, both challenge rounds and the password step succeed and
`handle_verification_code` returns the failure pair `(False, None)`,
`main` nevertheless sets `success = True`, returns `(True, page)` and
skips the teardown — because `if handle_verification_code(...)` tests
the truthiness of the returned tuple and a non-empty tuple is truthy.
The claim (teardown exactly on non-success, `success` only set when the
verification-code step actually succeeded) is the evident intent:
`handle_verification_code` returns `(False, None)` precisely on its
failure paths, and `main`'s own else-branch prints a
"verification code processing failed" message that this behaviour
bypasses. -/
theorem main_treats_failed_code_step_as_success :
    main_run ⟨true, true, true, true, some (false, false)⟩ =
      ⟨true, false, true, true⟩ := rfl

/-- Claim C7, counterexample to "generates exactly when none are
supplied" and "caller-supplied values are used unchanged": with only the
email supplied, `main` still regenerates all four credentials and the
supplied email is discarded, not used. -/
theorem main_credentials_partial_supply_discarded :
    main_credentials (some "user@example.com") none none none randEx [] =
      (("Abcdef", "Ghijkl", "abcdef123@example.com", "XyZ9pass!"),
       [("abcdef123@example.com", "XyZ9pass!")]) ∧
    "abcdef123@example.com" ≠ "user@example.com" := by
  constructor
  · rfl
  · decide

/-- Claim C7 (amended): `main` regenerates all four throwaway
credentials exactly when at least one of the four caller arguments is
missing or empty (discarding any partially supplied values), uses the
supplied values unchanged when all four are present, and whenever it
generates it appends one `(email, password)` record to
`test_accounts.txt` without truncating existing content (the old file is
a prefix of the new one). -/
theorem main_credentials_regenerate_iff_missing
    (em pw fn ln : Option String) (r : RandCreds) (file : List (String × String)) :
    ((main_credentials em pw fn ln r file).2 = file ↔
      (pyTruthyStr em && pyTruthyStr pw && pyTruthyStr fn && pyTruthyStr ln) = true) ∧
    ((main_credentials em pw fn ln r file).2.take file.length = file) ∧
    ((pyTruthyStr em && pyTruthyStr pw && pyTruthyStr fn && pyTruthyStr ln) = true →
      main_credentials em pw fn ln r file =
        ((fn.getD "", ln.getD "", em.getD "", pw.getD ""), file)) ∧
    ((pyTruthyStr em && pyTruthyStr pw && pyTruthyStr fn && pyTruthyStr ln) = false →
      main_credentials em pw fn ln r file =
        ((r.firstName, r.lastName, r.email, r.password), file ++ [(r.email, r.password)])) := by
  by_cases h : (pyTruthyStr em && pyTruthyStr pw && pyTruthyStr fn && pyTruthyStr ln) = true
  · refine ⟨?_, ?_, ?_, ?_⟩
    · simp [main_credentials, h]
    · simp [main_credentials, h]
    · intro _
      simp [main_credentials, h]
    · intro hf
      rw [hf] at h
      exact absurd h (by simp)
  · have hf : (pyTruthyStr em && pyTruthyStr pw && pyTruthyStr fn && pyTruthyStr ln) = false := by
      simpa using h
    have hmain : main_credentials em pw fn ln r file =
        ((r.firstName, r.lastName, r.email, r.password), file ++ [(r.email, r.password)]) := by
      simp [main_credentials, hf]
    refine ⟨?_, ?_, ?_, ?_⟩
    · rw [hmain, hf]
      exact iff_of_false (append_singleton_ne file _) (by simp)
    · rw [hmain]
      exact List.take_left file _
    · intro hh
      rw [hh] at hf
      exact absurd hf (by simp)
    · intro _
      exact hmain

/-- Witness for C7 (amended): no credentials supplied — all four are
generated and one record is appended to the empty log. -/
theorem main_credentials_regenerate_iff_missing_witness :
    main_credentials none none none none randEx [] =
      (("Abcdef", "Ghijkl", "abcdef123@example.com", "XyZ9pass!"),
       [("abcdef123@example.com", "XyZ9pass!")]) :=
  (main_credentials_regenerate_iff_missing none none none none randEx []).2.2.2 rfl

/-- Claim C8: `handle_verification_code` does not always return a
`(bool, page)` pair. It falls off the end of the function and returns
`None` exactly when `email_tab` is falsy and either the controller lacks
`get_verification_code` or manual entry yields no code; every other
non-exceptional path returns `(True, browser_tab)` or `(False, None)`. -/
theorem handle_verification_code_return_shape (env : HvcEnv) :
    (handle_verification_code env = none ↔
      env.emailTab = false ∧ (env.hasGetCode = false ∨ env.manualCode = none)) ∧
    (handle_verification_code env = none ∨
      handle_verification_code env = some (true, true) ∨
      handle_verification_code env = some (false, false)) := by
  rcases hvcPollSection_shape env with hps | hps <;>
    obtain ⟨hg, et, mc, eh, ec, pc, t1, t2, t3⟩ := env <;>
    simp only [handle_verification_code] at * <;>
    cases hg <;> cases et <;> cases mc <;> cases eh <;> cases ec <;> cases t1 <;> cases t2 <;>
      simp_all

/-- Claim C9: `parse_random_time` is total and never raises — its
`try/except` wrapper always yields a pair: `(x, x)` for a single
parseable number, the two parsed components for a `'-'`- or
`','`-separated string (comma only tried when no dash is present), and
the default `(1, 3)` whenever its body fails for any reason. -/
theorem parse_random_time_total_cases (s : String) :
    (∃ p, parse_random_time_raw s = Except.ok p) ∧
    (∀ x, containsCh s.toList '-' = false → containsCh s.toList ',' = false →
       pyFloatL s.toList = some x → parse_random_time s = (x, x)) ∧
    (∀ x y a b, splitOnChar '-' s.toList = [a, b] → containsCh s.toList '-' = true →
       pyFloatL a = some x → pyFloatL b = some y → parse_random_time s = (x, y)) ∧
    (∀ x y a b, splitOnChar ',' s.toList = [a, b] → containsCh s.toList '-' = false →
       containsCh s.toList ',' = true →
       pyFloatL a = some x → pyFloatL b = some y → parse_random_time s = (x, y)) ∧
    (parse_body s.toList = Except.error () → parse_random_time s = (1, 3)) := by
  refine ⟨?_, ?_, ?_, ?_, ?_⟩
  · unfold parse_random_time_raw
    cases parse_body s.toList <;> exact ⟨_, rfl⟩
  · intro x hd hc hf
    simp only [String.toList] at hd hc hf
    simp [parse_random_time, parse_body, hd, hc, hf]
  · intro x y a b hsplit hd hx hy
    simp only [String.toList] at hsplit hd hx hy
    simp [parse_random_time, parse_body, hd, hsplit, hx, hy]
  · intro x y a b hsplit hd hc hx hy
    simp only [String.toList] at hsplit hd hc hx hy
    simp [parse_random_time, parse_body, hd, hc, hsplit, hx, hy]
  · intro herr
    simp only [String.toList] at herr
    simp [parse_random_time, herr]

/-- Witness for C9: the dash-separated string `"2-4"` parses to the pair
`(2, 4)`. -/
theorem parse_random_time_total_cases_witness :
    parse_random_time "2-4" = (2, 4) :=
  (parse_random_time_total_cases "2-4").2.2.1 2 4 ['2'] ['4'] rfl rfl rfl rfl

/-- Claim C10: `setup_config` never changes the value of a configuration
option that already exists in the config file: for every existing
configuration `c0` it (1) preserves every present option value,
(2) leaves every key outside the three defaulted options untouched,
(3) rewrites the file only when modified — `config_modified = false`
means the configuration is returned unchanged, (4) sets
`config_modified` only when one of the three default options was
missing (and hence added), and (5-7) fills each missing default option
with its default value. -/
theorem setup_config_preserves_existing (path : String) (c0 : IniConfig) :
    (∀ s o v, get_option c0 s o = some v →
      get_option (setup_config_existing path c0).1 s o = some v) ∧
    (∀ s o, ¬((s = "Chrome" ∧ o = "chromepath") ∨
        (s = "Turnstile" ∧ (o = "handle_turnstile_time" ∨ o = "handle_turnstile_random_time"))) →
      get_option (setup_config_existing path c0).1 s o = get_option c0 s o) ∧
    ((setup_config_existing path c0).2 = false → (setup_config_existing path c0).1 = c0) ∧
    ((setup_config_existing path c0).2 = true →
      (has_option c0 "Chrome" "chromepath" = false ∨
       has_option c0 "Turnstile" "handle_turnstile_time" = false ∨
       has_option c0 "Turnstile" "handle_turnstile_random_time" = false)) ∧
    (has_option c0 "Chrome" "chromepath" = false →
      get_option (setup_config_existing path c0).1 "Chrome" "chromepath" = some path) ∧
    (has_option c0 "Turnstile" "handle_turnstile_time" = false →
      get_option (setup_config_existing path c0).1 "Turnstile" "handle_turnstile_time" = some "2") ∧
    (has_option c0 "Turnstile" "handle_turnstile_random_time" = false →
      get_option (setup_config_existing path c0).1 "Turnstile" "handle_turnstile_random_time" =
        some "1-3") := by
  have hsetup : setup_config_existing path c0 =
      ensureSection (ensureSection (c0, false) ("Chrome", [("chromepath", path)]))
        ("Turnstile",
         [("handle_turnstile_time", "2"), ("handle_turnstile_random_time", "1-3")]) := rfl
  have hall : has_option c0 "Chrome" "chromepath" = true →
      has_option c0 "Turnstile" "handle_turnstile_time" = true →
      has_option c0 "Turnstile" "handle_turnstile_random_time" = true →
      setup_config_existing path c0 = (c0, false) := by
    intro h1 h2 h3
    have hs1 := has_option_section _ _ _ h1
    have hs2 := has_option_section _ _ _ h2
    simp [setup_config_existing, defaultConfig, ensureSection, ensureOption,
      List.foldl_cons, List.foldl_nil, hs1, hs2, h1, h2, h3]
  refine ⟨?_, ?_, ?_, ?_, ?_, ?_, ?_⟩
  · intro s o v hv
    rw [hsetup]
    exact ensureSection_preserves _ _ _ _ _ (ensureSection_preserves _ _ _ _ _ hv)
  · intro s o hno
    rw [hsetup,
      ensureSection_get_other _ _ _ _ (fun ov hov hc => by
        apply hno
        right
        refine ⟨hc.1, ?_⟩
        simp only [List.mem_cons, List.mem_singleton, List.not_mem_nil] at hov
        rcases hov with rfl | rfl | hfalse
        · exact Or.inl hc.2
        · exact Or.inr hc.2
        · exact absurd hfalse (by simp)),
      ensureSection_get_other _ _ _ _ (fun ov hov hc => by
        apply hno
        left
        refine ⟨hc.1, ?_⟩
        simp only [List.mem_cons, List.not_mem_nil] at hov
        rcases hov with rfl | hfalse
        · exact hc.2
        · exact absurd hfalse (by simp))]
  · intro hmod
    rw [hsetup] at hmod ⊢
    obtain ⟨houter, hinnerflag⟩ := ensureSection_false _ _ hmod
    obtain ⟨hinner, _⟩ := ensureSection_false _ _ hinnerflag
    rw [houter, hinner]
  · intro hmod
    by_cases b1 : has_option c0 "Chrome" "chromepath" = false
    · exact Or.inl b1
    by_cases b2 : has_option c0 "Turnstile" "handle_turnstile_time" = false
    · exact Or.inr (Or.inl b2)
    by_cases b3 : has_option c0 "Turnstile" "handle_turnstile_random_time" = false
    · exact Or.inr (Or.inr b3)
    exfalso
    simp only [Bool.not_eq_false] at b1 b2 b3
    rw [hall b1 b2 b3] at hmod
    simp at hmod
  · intro h
    rw [hsetup,
      ensureSection_get_other _ _ _ _ (fun ov _ hc => absurd hc.1 (by decide))]
    unfold ensureSection
    by_cases hs1 : has_section c0 "Chrome" = true
    · simp only [hs1, if_true, List.foldl_cons, List.foldl_nil]
      unfold ensureOption
      simp only [h, Bool.false_eq_true, if_false]
      rw [get_option_config_set]
      simp
    · simp only [Bool.not_eq_true] at hs1
      simp only [hs1, Bool.false_eq_true, if_false, List.foldl_cons, List.foldl_nil]
      unfold ensureOption
      have hao : has_option (add_section c0 "Chrome", true).1 "Chrome" "chromepath" = false := by
        rw [show (add_section c0 "Chrome", true).1 = add_section c0 "Chrome" from rfl,
          has_option_add_section, if_pos rfl]
      simp only [hao, Bool.false_eq_true, if_false]
      rw [get_option_config_set]
      simp
  · intro h
    rw [hsetup]
    have hframe : has_option (ensureSection (c0, false) ("Chrome", [("chromepath", path)])).1
        "Turnstile" "handle_turnstile_time" = false := by
      rw [ensureSection_has_other_section _ _ _ _ (by intro hc; simp at hc)]
      exact h
    generalize hc1 : ensureSection (c0, false) ("Chrome", [("chromepath", path)]) = acc at hframe ⊢
    unfold ensureSection
    by_cases hs2 : has_section acc.1 "Turnstile" = true
    · simp only [hs2, if_true, List.foldl_cons, List.foldl_nil]
      rw [ensureOption_get_other _ _ _ _ _ (fun hc => by
        have := hc.2
        simp at this)]
      unfold ensureOption
      simp only [hframe, Bool.false_eq_true, if_false]
      rw [get_option_config_set]
      simp
    · simp only [Bool.not_eq_true] at hs2
      simp only [hs2, Bool.false_eq_true, if_false, List.foldl_cons, List.foldl_nil]
      rw [ensureOption_get_other _ _ _ _ _ (fun hc => by
        have := hc.2
        simp at this)]
      unfold ensureOption
      have hao : has_option (add_section acc.1 "Turnstile", true).1 "Turnstile"
          "handle_turnstile_time" = false := by
        rw [show (add_section acc.1 "Turnstile", true).1 = add_section acc.1 "Turnstile" from rfl,
          has_option_add_section, if_pos rfl]
      simp only [hao, Bool.false_eq_true, if_false]
      rw [get_option_config_set]
      simp
  · intro h
    rw [hsetup]
    have hframe : has_option (ensureSection (c0, false) ("Chrome", [("chromepath", path)])).1
        "Turnstile" "handle_turnstile_random_time" = false := by
      rw [ensureSection_has_other_section _ _ _ _ (by intro hc; simp at hc)]
      exact h
    generalize hc1 : ensureSection (c0, false) ("Chrome", [("chromepath", path)]) = acc at hframe ⊢
    unfold ensureSection
    by_cases hs2 : has_section acc.1 "Turnstile" = true
    · simp only [hs2, if_true, List.foldl_cons, List.foldl_nil]
      have hmid : has_option (ensureOption acc "Turnstile" ("handle_turnstile_time", "2")).1
          "Turnstile" "handle_turnstile_random_time" = false := by
        rw [ensureOption_has_other _ _ _ _ _ (fun hc => by
          have := hc.2
          simp at this)]
        exact hframe
      unfold ensureOption at hmid ⊢
      simp only [hmid, Bool.false_eq_true, if_false]
      rw [get_option_config_set]
      simp
    · simp only [Bool.not_eq_true] at hs2
      simp only [hs2, Bool.false_eq_true, if_false, List.foldl_cons, List.foldl_nil]
      have hao : has_option (add_section acc.1 "Turnstile", true).1 "Turnstile"
          "handle_turnstile_random_time" = false := by
        rw [show (add_section acc.1 "Turnstile", true).1 = add_section acc.1 "Turnstile" from rfl,
          has_option_add_section, if_pos rfl]
      have hmid : has_option (ensureOption (add_section acc.1 "Turnstile", true) "Turnstile"
          ("handle_turnstile_time", "2")).1 "Turnstile" "handle_turnstile_random_time" = false := by
        rw [ensureOption_has_other _ _ _ _ _ (fun hc => by
          have := hc.2
          simp at this)]
        exact hao
      unfold ensureOption at hmid ⊢
      simp only [hmid, Bool.false_eq_true, if_false]
      rw [get_option_config_set]
      simp

/-- Witness for C10: a file that already sets
`Turnstile.handle_turnstile_time = 5` keeps that value through
`setup_config`. -/
theorem setup_config_preserves_existing_witness :
    get_option (setup_config_existing "" c0Ex).1 "Turnstile" "handle_turnstile_time" =
      some "5" :=
  (setup_config_preserves_existing "" c0Ex).1 "Turnstile" "handle_turnstile_time" "5" rfl
